import Mathlib

/-!
Verification of the `Blob` motion model of the tuio-rs TUIO protocol engine
(`src/blob.rs`), against its natural-language specification.

Modelling conventions:
* `f32` values are idealized as real numbers (`ℝ`); `Duration::as_secs_f32` becomes a
  real `delta_time` argument (a `Duration` is never negative, so theorems about the
  computation carry the hypothesis `0 < delta_time` where the spec requires it).
* `i32` session ids become `ℤ`.
* For the claims about IEEE special values (NaN / Infinity arising from division by a
  zero `delta_time`), a second model `F` of `f32` is used: finite values are exact
  reals (rounding is not modelled), and the special values `+∞`, `-∞`, `NaN` are
  explicit constructors, with the arithmetic operations following the IEEE-754 rules
  on those special values (all finite zeros are taken to be `+0`, which is the only
  zero the modelled code paths can produce from `Duration::as_secs_f32`).
-/

namespace Tuio

/-- Modelled from the spec: `Position` is declared in `cursor.rs`, which is not among
the available sources. Per §3 it is "a 2D point with components in the normalized
range [0,1] (screen-independent)"; its `f32` components are idealized as reals. -/
structure Position where
  x : ℝ
  y : ℝ

/-- Modelled from the spec: `Velocity` is declared in `cursor.rs`, which is not among
the available sources. Per §3 it is "a 2D vector, components in normalized units per
second"; its `f32` components are idealized as reals. -/
structure Velocity where
  x : ℝ
  y : ℝ

/-- Modelled from the spec: `Position` "Supports a distance computation to another
Position" (§3) — the Euclidean distance, as pinned down by the motion-determinism
example of §8 ("speed delta SQRT(2)" for a move from (0,0) to (1,1)). -/
noncomputable def Position.distance_from (p other : Position) : ℝ :=
  Real.sqrt ((p.x - other.x) ^ 2 + (p.y - other.y) ^ 2)

/-- Modelled from the spec: `Velocity` "supports a magnitude (\"speed\") computation"
(§3) — the Euclidean magnitude. -/
noncomputable def Velocity.get_speed (v : Velocity) : ℝ :=
  Real.sqrt (v.x ^ 2 + v.y ^ 2)

/-- `Velocity::default()` (the derived `Default`): both components zero. -/
def Velocity.default : Velocity := ⟨0, 0⟩

/-- The `Blob` struct of `src/blob.rs` lines 5–17, `f32` fields idealized as reals. -/
structure Blob where
  session_id : ℤ
  position : Position
  velocity : Velocity
  acceleration : ℝ
  angle : ℝ
  rotation_speed : ℝ
  rotation_acceleration : ℝ
  width : ℝ
  height : ℝ
  area : ℝ

/-- `Blob::new` (`src/blob.rs` lines 28–48). -/
def Blob.new (session_id : ℤ) (position : Position) (angle width height area : ℝ) :
    Blob :=
  { session_id := session_id
    position := position
    velocity := Velocity.default
    acceleration := 0
    angle := angle
    rotation_speed := 0
    rotation_acceleration := 0
    width := width
    height := height
    area := area }

/-- `Blob::with_motion` (`src/blob.rs` lines 56–68). -/
def Blob.with_motion (b : Blob) (velocity : Velocity)
    (rotation_speed acceleration rotation_acceleration : ℝ) : Blob :=
  { b with
    velocity := velocity
    rotation_speed := rotation_speed
    acceleration := acceleration
    rotation_acceleration := rotation_acceleration }

/-- `Blob::update` (`src/blob.rs` lines 78–113), written functionally: `self` before
the call is `b`, the returned record is `self` after the call. The source computes
`rotation_acceleration` from the not-yet-overwritten `self.rotation_speed`, and its
`last_speed`/`distance`/`delta_x`/`delta_y` all read the pre-call fields, which the
`let` bindings over `b` reproduce. The source contains no assignment to `self.angle`
and no validation of `delta_time`, and this translation faithfully keeps both facts. -/
noncomputable def Blob.update (b : Blob) (delta_time : ℝ) (position : Position)
    (angle width height area : ℝ) : Blob :=
  let distance := position.distance_from b.position
  let delta_x := position.x - b.position.x
  let delta_y := position.y - b.position.y
  let last_speed := b.velocity.get_speed
  let speed := distance / delta_time
  let velocity : Velocity := ⟨delta_x / delta_time, delta_y / delta_time⟩
  let acceleration := (speed - last_speed) / delta_time
  let delta_turn := (angle - b.angle) / (2 * Real.pi)
  let rotation_speed := delta_turn / delta_time
  let rotation_acceleration := (rotation_speed - b.rotation_speed) / delta_time
  { b with
    velocity := velocity
    acceleration := acceleration
    position := position
    rotation_speed := rotation_speed
    rotation_acceleration := rotation_acceleration
    width := width
    height := height
    area := area }

/-- `Blob::get_session_id` (`src/blob.rs` lines 115–117). -/
def Blob.get_session_id (b : Blob) : ℤ := b.session_id

/-- `Blob::get_x_position` (`src/blob.rs` lines 123–125). -/
def Blob.get_x_position (b : Blob) : ℝ := b.position.x

/-- `Blob::get_y_position` (`src/blob.rs` lines 127–129). -/
def Blob.get_y_position (b : Blob) : ℝ := b.position.y

/-- `Blob::get_angle` (`src/blob.rs` lines 148–150). -/
def Blob.get_angle (b : Blob) : ℝ := b.angle

/-- The Rust cast `as u16` applied to an `f32` by the pixel getters: truncation
toward zero, saturating into the `u16` range `[0, 65535]`. On the nonnegative reals
truncation toward zero is `Int.floor`, and every negative value saturates to `0`,
which `Int.toNat` provides. -/
noncomputable def f32_as_u16 (x : ℝ) : ℕ :=
  min (Int.toNat ⌊x⌋) 65535

/-- `Blob::get_pixel_width` (`src/blob.rs` lines 173–175): `(self.width *
screen_width as f32) as u16`. -/
noncomputable def Blob.get_pixel_width (b : Blob) (screen_width : ℕ) : ℕ :=
  f32_as_u16 (b.width * (screen_width : ℝ))

/-- `Blob::get_pixel_height` (`src/blob.rs` lines 178–180): the source reads
`self.width`, not `self.height`: `(self.width * screen_height as f32) as u16`. -/
noncomputable def Blob.get_pixel_height (b : Blob) (screen_height : ℕ) : ℕ :=
  f32_as_u16 (b.width * (screen_height : ℝ))

/-- `impl PartialEq for Blob` (`src/blob.rs` lines 188–202), conjunct for conjunct.
The second and third conjuncts of the source compare `self.get_x_position()` with
`other.get_x_position()` and then `self.get_x_position()` with
`other.get_y_position()`; `self.get_y_position()` is never read. `Velocity`'s
`PartialEq` lives in the unavailable `cursor.rs`; modelled from the spec's data model
(§3) as component-wise equality of the 2D vector. -/
def Blob.eqRel (a other : Blob) : Prop :=
  a.session_id = other.session_id ∧
  a.get_x_position = other.get_x_position ∧
  a.get_x_position = other.get_y_position ∧
  a.angle = other.angle ∧
  (a.velocity.x = other.velocity.x ∧ a.velocity.y = other.velocity.y) ∧
  a.rotation_speed = other.rotation_speed ∧
  a.acceleration = other.acceleration ∧
  a.rotation_acceleration = other.rotation_acceleration ∧
  a.width = other.width ∧
  a.height = other.height ∧
  a.area = other.area

/-- `f32` with its IEEE-754 special values made explicit: a finite value is an exact
real (rounding is not modelled), and `+∞`, `-∞`, `NaN` are constructors. Every finite
zero is taken to be `+0` — the only zero the modelled code paths produce, since
`Duration::as_secs_f32` is nonnegative and the attribute inputs are plain values. -/
inductive F where
  | fin (x : ℝ)
  | inf
  | ninf
  | nan

/-- IEEE-754 addition on `F` (finite arithmetic exact): `∞ + (-∞) = NaN`, infinities
absorb finite operands, `NaN` propagates. -/
noncomputable def F.add : F → F → F
  | .fin x, .fin y => .fin (x + y)
  | .fin _, .inf => .inf
  | .inf, .fin _ => .inf
  | .fin _, .ninf => .ninf
  | .ninf, .fin _ => .ninf
  | .inf, .inf => .inf
  | .ninf, .ninf => .ninf
  | .inf, .ninf => .nan
  | .ninf, .inf => .nan
  | .nan, _ => .nan
  | _, .nan => .nan

/-- IEEE-754 subtraction on `F`: `∞ - ∞ = NaN`, infinities dominate finite operands
with the appropriate sign, `NaN` propagates. -/
noncomputable def F.sub : F → F → F
  | .fin x, .fin y => .fin (x - y)
  | .fin _, .inf => .ninf
  | .inf, .fin _ => .inf
  | .fin _, .ninf => .inf
  | .ninf, .fin _ => .ninf
  | .inf, .inf => .nan
  | .ninf, .ninf => .nan
  | .inf, .ninf => .inf
  | .ninf, .inf => .ninf
  | .nan, _ => .nan
  | _, .nan => .nan

/-- IEEE-754 multiplication on `F`: `0 × ∞ = NaN`, otherwise infinities carry the
sign of the finite factor, `NaN` propagates. -/
noncomputable def F.mul : F → F → F
  | .fin x, .fin y => .fin (x * y)
  | .fin x, .inf => if x = 0 then .nan else if 0 < x then .inf else .ninf
  | .inf, .fin y => if y = 0 then .nan else if 0 < y then .inf else .ninf
  | .fin x, .ninf => if x = 0 then .nan else if 0 < x then .ninf else .inf
  | .ninf, .fin y => if y = 0 then .nan else if 0 < y then .ninf else .inf
  | .inf, .inf => .inf
  | .ninf, .ninf => .inf
  | .inf, .ninf => .ninf
  | .ninf, .inf => .ninf
  | .nan, _ => .nan
  | _, .nan => .nan

/-- IEEE-754 division on `F` (all zeros being `+0`): `finite ≠ 0 divided by 0` is a
signed infinity, `0 / 0 = NaN`, `∞ / ∞ = NaN`, `finite / ∞ = 0`, an infinity divided
by a finite keeps its sign (a finite divisor `0` counts as `+0`), `NaN` propagates. -/
noncomputable def F.div : F → F → F
  | .fin x, .fin y =>
      if y = 0 then (if x = 0 then .nan else if 0 < x then .inf else .ninf)
      else .fin (x / y)
  | .fin _, .inf => .fin 0
  | .fin _, .ninf => .fin 0
  | .inf, .fin y => if 0 ≤ y then .inf else .ninf
  | .ninf, .fin y => if 0 ≤ y then .ninf else .inf
  | .inf, .inf => .nan
  | .inf, .ninf => .nan
  | .ninf, .inf => .nan
  | .ninf, .ninf => .nan
  | .nan, _ => .nan
  | _, .nan => .nan

/-- IEEE-754 square root on `F`: `NaN` on negative arguments, `√(+∞) = +∞`, `NaN`
propagates. -/
noncomputable def F.sqrt : F → F
  | .fin x => if 0 ≤ x then .fin (Real.sqrt x) else .nan
  | .inf => .inf
  | .ninf => .nan
  | .nan => .nan

/-- `Position` over the special-value model of `f32`. -/
structure PositionF where
  x : F
  y : F

/-- `Velocity` over the special-value model of `f32`. -/
structure VelocityF where
  x : F
  y : F

/-- Modelled from the spec: Euclidean `Position::distance_from` (see
`Position.distance_from`), over the special-value model of `f32`. -/
noncomputable def PositionF.distance_from (p other : PositionF) : F :=
  (((p.x.sub other.x).mul (p.x.sub other.x)).add
    ((p.y.sub other.y).mul (p.y.sub other.y))).sqrt

/-- Modelled from the spec: Euclidean `Velocity::get_speed` (see
`Velocity.get_speed`), over the special-value model of `f32`. -/
noncomputable def VelocityF.get_speed (v : VelocityF) : F :=
  ((v.x.mul v.x).add (v.y.mul v.y)).sqrt

/-- The `Blob` struct over the special-value model of `f32`. -/
structure BlobF where
  session_id : ℤ
  position : PositionF
  velocity : VelocityF
  acceleration : F
  angle : F
  rotation_speed : F
  rotation_acceleration : F
  width : F
  height : F
  area : F

/-- `Blob::new` over the special-value model of `f32` (`src/blob.rs` lines 28–48). -/
def BlobF.new (session_id : ℤ) (position : PositionF)
    (angle width height area : F) : BlobF :=
  { session_id := session_id
    position := position
    velocity := ⟨.fin 0, .fin 0⟩
    acceleration := .fin 0
    angle := angle
    rotation_speed := .fin 0
    rotation_acceleration := .fin 0
    width := width
    height := height
    area := area }

/-- `Blob::update` over the special-value model of `f32` (`src/blob.rs` lines
78–113): the same statement-for-statement translation as `Blob.update`, with each
`f32` operation replaced by its IEEE special-value counterpart. The source performs
no validation of `delta_time` and returns no error of any kind (`update` returns the
unit type), so the model is a total function into `BlobF`. -/
noncomputable def BlobF.update (b : BlobF) (delta_time : F) (position : PositionF)
    (angle width height area : F) : BlobF :=
  let distance := position.distance_from b.position
  let delta_x := position.x.sub b.position.x
  let delta_y := position.y.sub b.position.y
  let last_speed := b.velocity.get_speed
  let speed := distance.div delta_time
  let velocity : VelocityF := ⟨delta_x.div delta_time, delta_y.div delta_time⟩
  let acceleration := (speed.sub last_speed).div delta_time
  let delta_turn := (angle.sub b.angle).div ((F.fin 2).mul (.fin Real.pi))
  let rotation_speed := delta_turn.div delta_time
  let rotation_acceleration := (rotation_speed.sub b.rotation_speed).div delta_time
  { b with
    velocity := velocity
    acceleration := acceleration
    position := position
    rotation_speed := rotation_speed
    rotation_acceleration := rotation_acceleration
    width := width
    height := height
    area := area }

/-- The mutating operations available on a `Blob` after construction (`Blob::update`
and `Blob::with_motion`), reified so that arbitrary call sequences can be quantified
over. -/
inductive BlobOp where
  | update (delta_time : ℝ) (position : Position) (angle width height area : ℝ)
  | with_motion (velocity : Velocity)
      (rotation_speed acceleration rotation_acceleration : ℝ)

/-- Apply one reified operation to a blob. -/
noncomputable def Blob.applyOp (b : Blob) : BlobOp → Blob
  | .update dt p a w h ar => b.update dt p a w h ar
  | .with_motion v rs acc racc => b.with_motion v rs acc racc

/-- Neither `Blob.update` nor `Blob.with_motion` writes the `session_id` field. -/
theorem Blob.applyOp_session_id (b : Blob) (op : BlobOp) :
    (b.applyOp op).session_id = b.session_id := by
  cases op <;> rfl

/-- C6: a blob freshly created by `Blob::new` (the first observation) has default
velocity `(0, 0)`, zero acceleration, zero rotation speed and zero rotation
acceleration: no derivative is computed at construction. -/
theorem new_zero_kinematics (session_id : ℤ) (position : Position)
    (angle width height area : ℝ) :
    (Blob.new session_id position angle width height area).velocity = ⟨0, 0⟩ ∧
    (Blob.new session_id position angle width height area).acceleration = 0 ∧
    (Blob.new session_id position angle width height area).rotation_speed = 0 ∧
    (Blob.new session_id position angle width height area).rotation_acceleration
      = 0 :=
  ⟨rfl, rfl, rfl, rfl⟩

/-- C10: `Blob::with_motion` sets exactly the four fields `velocity`,
`rotation_speed`, `acceleration` and `rotation_acceleration` to its arguments and
leaves `session_id`, `position`, `angle`, `width`, `height` and `area` unchanged. -/
theorem with_motion_sets_exactly_motion_fields (b : Blob) (velocity : Velocity)
    (rotation_speed acceleration rotation_acceleration : ℝ) :
    b.with_motion velocity rotation_speed acceleration rotation_acceleration =
      { session_id := b.session_id
        position := b.position
        velocity := velocity
        acceleration := acceleration
        angle := b.angle
        rotation_speed := rotation_speed
        rotation_acceleration := rotation_acceleration
        width := b.width
        height := b.height
        area := b.area } :=
  rfl

/-- C9: `Blob::get_pixel_height` multiplies the stored `width` (not `height`) by the
screen extent and truncates/saturates to `u16` — the very same computation as
`Blob::get_pixel_width` applied to `screen_height` — and its result never depends on
the stored `height` field. -/
theorem pixel_height_uses_width (b : Blob) (screen_height : ℕ) :
    b.get_pixel_height screen_height =
        min (Int.toNat ⌊b.width * (screen_height : ℝ)⌋) 65535 ∧
    b.get_pixel_height screen_height = b.get_pixel_width screen_height ∧
    ∀ c : ℝ, ({ b with height := c } : Blob).get_pixel_height screen_height =
      b.get_pixel_height screen_height :=
  ⟨rfl, rfl, fun _ => rfl⟩

/-- C7: the `session_id` field is written only by `Blob::new`; any sequence of
`Blob::update` / `Blob::with_motion` calls leaves it unchanged, so
`Blob::get_session_id` always returns the value passed to `Blob::new`. -/
theorem session_id_stable (session_id : ℤ) (position : Position)
    (angle width height area : ℝ) (ops : List BlobOp) :
    (ops.foldl Blob.applyOp
        (Blob.new session_id position angle width height area)).get_session_id =
      session_id := by
  suffices h : ∀ (b : Blob) (l : List BlobOp),
      (l.foldl Blob.applyOp b).session_id = b.session_id by
    exact h (Blob.new session_id position angle width height area) ops
  intro b l
  induction l generalizing b with
  | nil => rfl
  | cons op rest ih => rw [List.foldl_cons, ih, Blob.applyOp_session_id]

/-- C8: `Blob`'s `PartialEq` requires `self`'s x position to equal both `other`'s x
position and `other`'s y position; it never reads `self`'s y position (so the result
is invariant under changing it); consequently `a == a` holds exactly when `a`'s
position has equal x and y components. -/
theorem eq_compares_x_with_both (a b : Blob) :
    (a.eqRel b →
      a.get_x_position = b.get_x_position ∧ a.get_x_position = b.get_y_position) ∧
    (∀ c : ℝ,
      ({ a with position := ⟨a.position.x, c⟩ } : Blob).eqRel b ↔ a.eqRel b) ∧
    (a.eqRel a ↔ a.get_x_position = a.get_y_position) :=
  ⟨fun h => ⟨h.2.1, h.2.2.1⟩, fun _ => Iff.rfl,
    ⟨fun h => h.2.2.1,
      fun h => ⟨rfl, rfl, h, rfl, ⟨rfl, rfl⟩, rfl, rfl, rfl, rfl, rfl, rfl⟩⟩⟩

/-- Witness for C8 at a concrete blob whose position has x = y: equality with itself
then holds, by the theorem. -/
theorem eq_compares_x_with_both_witness :
    (Blob.new 0 ⟨0, 0⟩ 0 0 0 0).eqRel (Blob.new 0 ⟨0, 0⟩ 0 0 0 0) :=
  (eq_compares_x_with_both (Blob.new 0 ⟨0, 0⟩ 0 0 0 0)
    (Blob.new 0 ⟨0, 0⟩ 0 0 0 0)).2.2.mpr rfl

/-- C2 (amended): `Blob::update` never writes the `angle` field — the source has no
`self.angle = angle` assignment — so `get_angle` keeps returning the construction-time
angle after every update, and no modulo-2π wrapping is applied anywhere. -/
theorem update_preserves_angle (b : Blob) (delta_time : ℝ) (position : Position)
    (angle width height area : ℝ) :
    (b.update delta_time position angle width height area).get_angle =
      b.get_angle :=
  rfl

/-- C2 counterexample: a blob created with angle `0` and updated with the new angle
`π/2` (which lies in `[0, 2π)`, hence equals its own value wrapped modulo a full
turn) still reports angle `0`, not `π/2`, from `get_angle`. -/
theorem update_angle_not_stored_cex :
    ((Blob.new 0 ⟨0, 0⟩ 0 0 0 0).update 1 ⟨0, 0⟩ (Real.pi / 2) 0 0 0).get_angle
        = 0 ∧
    Real.pi / 2 ≠ 0 ∧ 0 ≤ Real.pi / 2 ∧ Real.pi / 2 < 2 * Real.pi := by
  refine ⟨rfl, ?_, ?_, ?_⟩
  · positivity
  · positivity
  · linarith [Real.pi_pos]

/-- C4: for every update, the new velocity is the component-wise position difference
divided by the elapsed time. -/
theorem update_velocity_formula (b : Blob) (delta_time : ℝ) (position : Position)
    (angle width height area : ℝ) (h : 0 < delta_time) :
    (b.update delta_time position angle width height area).velocity.x =
      (position.x - b.position.x) / delta_time ∧
    (b.update delta_time position angle width height area).velocity.y =
      (position.y - b.position.y) / delta_time :=
  ⟨rfl, rfl⟩

/-- Witness for C4: moving from `(0,0)` to `(1,1)` with `Δt = 1 s` yields velocity
`(1, 1)`. -/
theorem update_velocity_formula_witness :
    (0 : ℝ) < 1 ∧
    ((Blob.new 0 ⟨0, 0⟩ 0 0 0 0).update 1 ⟨1, 1⟩ 0 0 0 0).velocity.x = 1 ∧
    ((Blob.new 0 ⟨0, 0⟩ 0 0 0 0).update 1 ⟨1, 1⟩ 0 0 0 0).velocity.y = 1 := by
  have h := update_velocity_formula (Blob.new 0 ⟨0, 0⟩ 0 0 0 0) 1 ⟨1, 1⟩ 0 0 0 0
    (by norm_num)
  refine ⟨by norm_num, ?_, ?_⟩
  · rw [h.1]; norm_num [Blob.new]
  · rw [h.2]; norm_num [Blob.new]

/-- C3: for every update, `delta_turn` is the angle difference divided by `2π`, the
new rotation speed is `delta_turn / Δt`, and the new rotation acceleration is the
rotation-speed difference divided by `Δt` (computed against the rotation speed stored
before the update). -/
theorem update_rotation_formulas (b : Blob) (delta_time : ℝ) (position : Position)
    (angle width height area : ℝ) (h : 0 < delta_time) :
    (b.update delta_time position angle width height area).rotation_speed =
      ((angle - b.angle) / (2 * Real.pi)) / delta_time ∧
    (b.update delta_time position angle width height area).rotation_acceleration =
      (((angle - b.angle) / (2 * Real.pi)) / delta_time - b.rotation_speed) /
        delta_time :=
  ⟨rfl, rfl⟩

/-- Witness for C3: an update from angle `0` to `π/2` (90°) over one second yields a
rotation speed of `0.25` turns per second. -/
theorem update_rotation_formulas_witness :
    (0 : ℝ) < 1 ∧
    ((Blob.new 0 ⟨0, 0⟩ 0 0 0 0).update 1 ⟨1, 1⟩ (Real.pi / 2) 0.5 0.5
        0.25).rotation_speed = 0.25 := by
  have h := update_rotation_formulas (Blob.new 0 ⟨0, 0⟩ 0 0 0 0) 1 ⟨1, 1⟩
    (Real.pi / 2) 0.5 0.5 0.25 (by norm_num)
  refine ⟨by norm_num, ?_⟩
  rw [h.1]
  have hπ : Real.pi ≠ 0 := Real.pi_ne_zero
  simp only [Blob.new]
  rw [sub_zero, div_one]
  rw [div_eq_iff (by positivity : (2 : ℝ) * Real.pi ≠ 0)]
  ring

/-- C5: for every update, the new scalar acceleration is `(speed - last_speed) / Δt`,
where `speed` is the Euclidean distance moved divided by `Δt` and `last_speed` is the
Euclidean magnitude of the velocity stored before the update. -/
theorem update_acceleration_formula (b : Blob) (delta_time : ℝ)
    (position : Position) (angle width height area : ℝ) (h : 0 < delta_time) :
    (b.update delta_time position angle width height area).acceleration =
      (Real.sqrt
          ((position.x - b.position.x) ^ 2 + (position.y - b.position.y) ^ 2) /
            delta_time -
        Real.sqrt (b.velocity.x ^ 2 + b.velocity.y ^ 2)) / delta_time :=
  rfl

/-- Witness for C5: moving from `(0,0)` at rest to `(1,1)` with `Δt = 1 s` yields
acceleration `√2`. -/
theorem update_acceleration_formula_witness :
    (0 : ℝ) < 1 ∧
    ((Blob.new 0 ⟨0, 0⟩ 0 0 0 0).update 1 ⟨1, 1⟩ 0 0 0 0).acceleration =
      Real.sqrt 2 := by
  have h := update_acceleration_formula (Blob.new 0 ⟨0, 0⟩ 0 0 0 0) 1 ⟨1, 1⟩ 0 0 0 0
    (by norm_num)
  refine ⟨by norm_num, ?_⟩
  rw [h]
  norm_num [Blob.new, Velocity.default]

/-- C1 (amended): `Blob::update` performs no validation of `delta_time` and returns
no error; with `Δt = 0` it silently divides by zero, so any positive x-displacement
makes the new x-velocity `+∞` in the `f32` special-value model. -/
theorem update_dt_zero_silent_div (px py x : ℝ) (h : px < x) :
    ((BlobF.new 0 ⟨.fin px, .fin py⟩ (.fin 0) (.fin 0) (.fin 0) (.fin 0)).update
        (.fin 0) ⟨.fin x, .fin py⟩ (.fin 0) (.fin 0) (.fin 0)
        (.fin 0)).velocity.x = F.inf := by
  have hx : (0 : ℝ) < x - px := sub_pos.mpr h
  simp [BlobF.update, BlobF.new, F.sub, F.div, hx.ne', hx]

/-- Witness for the amended C1 at `px = 0`, `x = 1`. -/
theorem update_dt_zero_silent_div_witness :
    (0 : ℝ) < 1 ∧
    ((BlobF.new 0 ⟨.fin 0, .fin 0⟩ (.fin 0) (.fin 0) (.fin 0) (.fin 0)).update
        (.fin 0) ⟨.fin 1, .fin 0⟩ (.fin 0) (.fin 0) (.fin 0)
        (.fin 0)).velocity.x = F.inf :=
  ⟨by norm_num, update_dt_zero_silent_div 0 0 1 (by norm_num)⟩

/-- C1 counterexample: a blob created at `(0,0)` (one prior observation) and updated
with `Δt = 0` to position `(1,1)` is not rejected — `update` has no error path — and
the division by the zero elapsed time produces `+∞` both in the x-velocity and in the
scalar acceleration. -/
theorem update_dt_zero_inf_cex :
    ((BlobF.new 0 ⟨.fin 0, .fin 0⟩ (.fin 0) (.fin 0) (.fin 0) (.fin 0)).update
        (.fin 0) ⟨.fin 1, .fin 1⟩ (.fin (Real.pi / 2)) (.fin 0.5) (.fin 0.5)
        (.fin 0.25)).velocity.x = F.inf ∧
    ((BlobF.new 0 ⟨.fin 0, .fin 0⟩ (.fin 0) (.fin 0) (.fin 0) (.fin 0)).update
        (.fin 0) ⟨.fin 1, .fin 1⟩ (.fin (Real.pi / 2)) (.fin 0.5) (.fin 0.5)
        (.fin 0.25)).acceleration = F.inf := by
  have h2 : (0 : ℝ) < Real.sqrt 2 := Real.sqrt_pos.mpr (by norm_num)
  constructor <;>
    norm_num [BlobF.update, BlobF.new, PositionF.distance_from,
      VelocityF.get_speed, F.sub, F.add, F.mul, F.div, F.sqrt, h2.ne', h2]

end Tuio
